import Mathlib

/-!
Verification of `src/dji_video_control.py` (DJI Romo video stream and robot
control script) against its natural-language specification.

The Python source is shallowly embedded: pure helpers become Lean functions,
the mutable controller object becomes an explicit record `CState`, the
concurrent transport callbacks, broadcaster ticks and HTTP requests become an
event type `Ev` with a guarded transition function, and fallible code (Python
exceptions) returns `Option`.
-/

namespace DJIVideoControl

/-! ### Credential parsing (`DJIVideoController._parse_stream_creds`, lines 141-155)

The Python code splits the grant URL on `&`, splits each part at the first
`=`, percent-decodes the value with `urllib.parse.unquote`, and reads
`app_id`, `channel`, `token` (default `""`), `uid` via `int(...)` (default
string `"0"`) and `publish_uid` (default `50000`).  String processing is
embedded over `List Char` so that everything reduces in the kernel. -/

/-- Hexadecimal digit test, as used by percent-decoding. -/
def isHexDig (c : Char) : Bool :=
  c.isDigit || ('a' ≤ c && c ≤ 'f') || ('A' ≤ c && c ≤ 'F')

/-- Numeric value of a hexadecimal digit. -/
def hexVal (c : Char) : Nat :=
  if c.isDigit then c.toNat - '0'.toNat
  else if 'a' ≤ c && c ≤ 'f' then c.toNat - 'a'.toNat + 10
  else c.toNat - 'A'.toNat + 10

/-- Model of `urllib.parse.unquote` on the single-byte fragment: `%XX` with two
hexadecimal digits decodes to the character with that code, anything else is
copied verbatim.  (Python additionally UTF-8-decodes multi-byte sequences;
the credentials handled here are ASCII, where the two agree.) -/
def unquoteChars : List Char → List Char
  | [] => []
  | '%' :: h1 :: h2 :: rest =>
    if isHexDig h1 && isHexDig h2 then
      Char.ofNat (16 * hexVal h1 + hexVal h2) :: unquoteChars rest
    else
      '%' :: unquoteChars (h1 :: h2 :: rest)
  | c :: rest => c :: unquoteChars rest

/-- Model of Python `str.split(sep)` for a one-character separator: splits on
every occurrence, keeping empty pieces (so `"".split` gives one empty piece). -/
def splitOnChar (c : Char) : List Char → List (List Char)
  | [] => [[]]
  | x :: rest =>
    let r := splitOnChar c rest
    if x = c then [] :: r
    else
      match r with
      | h :: t => (x :: h) :: t
      | [] => [[x]]

/-- Model of Python `part.split("=", 1)` guarded by `"=" in part`: `none` when
there is no `=`, otherwise the text before the first `=` and all of the rest. -/
def splitFirstEq : List Char → Option (List Char × List Char)
  | [] => none
  | '=' :: rest => some ([], rest)
  | c :: rest => (splitFirstEq rest).map fun p => (c :: p.1, p.2)

/-- Whitespace characters stripped by Python `int(str)`. -/
def isPySpace (c : Char) : Bool :=
  c = ' ' || c = '\t' || c = '\n' || c = '\r' || c = '\x0b' || c = '\x0c'

/-- Digit-run validity for Python integer literals after the optional sign:
every character is a digit or an underscore, the run starts and ends with a
digit, and underscores are single and surrounded by digits. -/
def pyDigitsRest : List Char → Bool
  | [] => true
  | [c] => c.isDigit
  | c :: d :: rest =>
    (c.isDigit && pyDigitsRest (d :: rest)) ||
    (c = '_' && d.isDigit && pyDigitsRest (d :: rest))

/-- A nonempty digit run acceptable to Python `int`, first char must be a digit. -/
def pyDigits : List Char → Bool
  | [] => false
  | c :: rest => c.isDigit && pyDigitsRest (c :: rest)

/-- Value of a digit run (underscores skipped). -/
def digitsVal (l : List Char) : Nat :=
  (l.filter fun c => c ≠ '_').foldl (fun a c => 10 * a + (c.toNat - '0'.toNat)) 0

/-- Model of Python `int(s)`: strips surrounding whitespace, accepts one
optional sign followed directly by a valid digit run; any other input makes
Python raise `ValueError`, modelled as `none`. -/
def pyInt? (s : String) : Option Int :=
  let l := ((s.data.dropWhile isPySpace).reverse.dropWhile isPySpace).reverse
  match l with
  | '-' :: rest => if pyDigits rest then some (-(digitsVal rest : Int)) else none
  | '+' :: rest => if pyDigits rest then some (digitsVal rest : Int) else none
  | _ => if pyDigits l then some (digitsVal l : Int) else none

/-- The credential record produced by `_parse_stream_creds`. -/
structure Creds where
  app_id : String
  channel : String
  token : String
  uid : Int
  publish_uid : Nat
deriving DecidableEq

/-- The key/value pairs collected by the parsing loop of `_parse_stream_creds`,
in source order: parts without `=` are skipped, values are percent-decoded. -/
def parseParams (url : String) : List (String × String) :=
  (splitOnChar '&' url.data).foldl
    (fun ps part =>
      match splitFirstEq part with
      | some (k, v) => ps ++ [(String.mk k, String.mk (unquoteChars v))]
      | none => ps)
    []

/-- Python dict lookup with default: the build loop overwrites earlier
bindings, so the last binding of a key wins. -/
def dictGet (ps : List (String × String)) (k dflt : String) : String :=
  (ps.reverse.lookup k).getD dflt

/-- `DJIVideoController._parse_stream_creds`.  The only failing operation in
the body is `int(params.get("uid", "0"))`: a present but malformed `uid`
raises `ValueError`, modelled as `none`.  `publish_uid` comes from
`data.get("publish_uid", 50000)`. -/
def parse_stream_creds (url : String) (pub? : Option Nat) : Option Creds :=
  let params := parseParams url
  match pyInt? (dictGet params "uid" "0") with
  | none => none
  | some n =>
    some { app_id := dictGet params "app_id" ""
           channel := dictGet params "channel" ""
           token := dictGet params "token" ""
           uid := n
           publish_uid := pub?.getD 50000 }

/-! ### Session state and command broadcaster (lines 83-95, 182-225, 289-342)

`CState` collects the mutable fields of `DJIVideoController` relevant to the
control channel.  `connection` is `true` while `agora_connection` is not
`None`; `sent` is the history of wire messages handed to
`send_stream_message`, oldest first. -/

/-- One wire message (`_send_agora_message_now`, lines 301-308).  The constant
fields `x = 1.0`, `y = 0.0` are never varied by the code and are omitted. -/
structure Msg where
  seq_id : Nat
  timestamp : Nat
  mode : Nat
  version : Nat
deriving DecidableEq

/-- Build a wire message as `_send_agora_message_now` does (`version` is 2). -/
def mkMsg (seq now mode : Nat) : Msg :=
  { seq_id := seq, timestamp := now, mode := mode, version := 2 }

/-- Mutable controller state (`DJIVideoController.__init__`, lines 87-95). -/
structure CState where
  connection : Bool
  connected : Bool
  stream_ready : Bool
  robot_joined : Bool
  seq_id : Nat
  running : Bool
  current_mode : Option Nat
  sent : List Msg
deriving DecidableEq

/-- `AGORA_MODES` dict (lines 76-81): UI direction token to wire mode code. -/
def AGORA_MODES (direction : String) : Option Nat :=
  if direction = "forward" then some 17
  else if direction = "rotate_left" then some 18
  else if direction = "rotate_right" then some 19
  else if direction = "u_turn" then some 16
  else none

/-- `_send_agora_message_now` (lines 297-310): returns early when
`agora_connection` is `None` or the stream is not ready, otherwise appends one
message carrying the current `seq_id` and increments the counter. -/
def send_agora_message_now (now mode : Nat) (s : CState) : CState :=
  if !s.connection || !s.stream_ready then s
  else { s with sent := s.sent ++ [mkMsg s.seq_id now mode], seq_id := s.seq_id + 1 }

/-- `send_agora_control` (lines 312-325): `"stop"` clears the latched mode and
returns `True`; an unknown direction returns `False` without touching state;
a known direction latches its mode code and sends one message immediately. -/
def send_agora_control (now : Nat) (direction : String) (s : CState) : CState × Bool :=
  if direction = "stop" then ({ s with current_mode := none }, true)
  else
    match AGORA_MODES direction with
    | none => (s, false)
    | some m => (send_agora_message_now now m { s with current_mode := some m }, true)

/-- One iteration of `_agora_send_loop` (lines 289-295): send the latched mode
when the session is connected, the stream is ready and a mode is latched. -/
def agora_tick (now : Nat) (s : CState) : CState :=
  match s.current_mode with
  | some m => if s.connected && s.stream_ready then send_agora_message_now now m s else s
  | none => s

/-- State effect of `disconnect_agora` (lines 327-342): clears the latch,
stops the loop, releases the connection and clears the connectivity flags.
`agora_robot_joined` and `agora_seq_id` are left untouched. -/
def disconnect_agora_state (s : CState) : CState :=
  { s with current_mode := none, running := false,
           connection := false, connected := false, stream_ready := false }

/-! ### Local control API handler (`ControlAPIHandler.do_POST`, lines 1257-1288) -/

/-- Structured view of the JSON responses produced on the `/control` path. -/
structure ControlResponse where
  status : Nat
  ok : Bool
  direction : Option String
  via : Option String
  error : Option String
deriving DecidableEq

/-- The `dir_map` dict of `do_POST` (lines 1267-1278). -/
def DIR_MAP : List (String × String) :=
  [("up", "forward"), ("down", "u_turn"), ("left", "rotate_left"),
   ("right", "rotate_right"), ("none", "stop"), ("forward", "forward"),
   ("rotate_left", "rotate_left"), ("rotate_right", "rotate_right"),
   ("u_turn", "u_turn"), ("stop", "stop")]

/-- `dir_map.get(dir_in, 'stop')`. -/
def dir_map_get (d : String) : String :=
  (DIR_MAP.lookup d).getD "stop"

/-- The `/control` branch of `do_POST` on a successfully parsed JSON body:
`dirField` is `data.get('direction', 'none')` (with `none` for an absent
field).  Requires `agora_connected and agora_stream_ready`, otherwise answers
503 without touching state. -/
def do_POST_control (now : Nat) (dirField : Option String) (s : CState) :
    ControlResponse × CState :=
  let dir_in := dirField.getD "none"
  let direction := dir_map_get dir_in
  if s.connected && s.stream_ready then
    ({ status := 200, ok := true, direction := some direction,
       via := some "agora", error := none },
     (send_agora_control now direction s).1)
  else
    ({ status := 503, ok := false, direction := none, via := none,
       error := some "Agora not connected" }, s)

/-! ### Events and reachability

Transport lifecycle callbacks (`ConnObserver`, lines 182-217) run only while
the connection object they are registered on exists, broadcaster ticks only
while `agora_running` is true; HTTP requests and teardown may happen at any
time.  Each event is applied atomically. -/

/-- Events that mutate the controller state during a session. -/
inductive Ev where
  | onConnected
  | onDisconnected
  | onReconnected
  | onUserJoined (uid : Nat)
  | onUserLeft (uid : Nat)
  | tick (now : Nat)
  | control (now : Nat) (dirField : Option String)
  | teardown
deriving DecidableEq

/-- Effect of one event on the controller state; `pub` is the session's
`publish_uid` used by the join/left callbacks (lines 203-209).
`on_connected` sets `agora_stream_ready` in every branch of its
stream-creation `try` (lines 186-197). -/
def applyEv (pub : Nat) (e : Ev) (s : CState) : CState :=
  match e with
  | .onConnected => { s with connected := true, stream_ready := true }
  | .onDisconnected => { s with connected := false, stream_ready := false }
  | .onReconnected => { s with connected := true }
  | .onUserJoined u => if u = pub then { s with robot_joined := true } else s
  | .onUserLeft u => if u = pub then { s with robot_joined := false } else s
  | .tick now => agora_tick now s
  | .control now df => (do_POST_control now df s).2
  | .teardown => disconnect_agora_state s

/-- Scheduling constraints: callbacks need a live connection object, ticks a
running send loop. -/
def evOK (s : CState) : Ev → Prop
  | .onConnected => s.connection = true
  | .onDisconnected => s.connection = true
  | .onReconnected => s.connection = true
  | .onUserJoined _ => s.connection = true
  | .onUserLeft _ => s.connection = true
  | .tick _ => s.running = true
  | .control _ _ => True
  | .teardown => True

/-- Fresh session state: connection object created (line 248), send loop
armed (line 282), counters and flags at their `__init__` values. -/
def initState : CState :=
  { connection := true, connected := false, stream_ready := false,
    robot_joined := false, seq_id := 0, running := true,
    current_mode := none, sent := [] }

/-- States reachable within one session by any valid event interleaving. -/
inductive Reachable (pub : Nat) : CState → Prop where
  | init : Reachable pub initState
  | step {s : CState} (e : Ev) : Reachable pub s → evOK s e → Reachable pub (applyEv pub e s)

/-! ### Session invariants -/

/-- Invariant carried by every reachable state: the ready flag only holds with
a live, connected transport, and the transmitted messages carry consecutive
sequence numbers starting at 0 with `agora_seq_id` one past the last. -/
def Inv (s : CState) : Prop :=
  (s.stream_ready = true → s.connected = true ∧ s.connection = true)
  ∧ s.seq_id = s.sent.length
  ∧ s.sent.map Msg.seq_id = List.range s.sent.length

/-! ### Readiness gate of `connect_agora` (lines 256-264)

The caller polls the two flags up to 100 times at 100 ms.  Flag reads are
numbered consecutively; `f i` is the `(agora_connected, agora_stream_ready)`
pair observed at read `i`, reflecting whatever the concurrent callbacks have
done by then.  After the loop one more read of `agora_connected` alone
decides between proceeding and the `Connection timeout` failure return. -/

/-- The `for _ in range(100)` wait loop: returns the index of the read at
which it broke out (both flags true), or `start + fuel` when fuel ran out. -/
def pollLoop (f : Nat → Bool × Bool) : Nat → Nat → Nat
  | 0, i => i
  | fuel + 1, i => if (f i).1 && (f i).2 then i else pollLoop f fuel (i + 1)

/-- Index of the read that terminated the wait loop (100 when it expired). -/
def breakIdx (f : Nat → Bool × Bool) : Nat :=
  pollLoop f 100 0

/-- Index of the post-loop read of `agora_connected` (line 262). -/
def finalIdx (f : Nat → Bool × Bool) : Nat :=
  if breakIdx f < 100 then breakIdx f + 1 else 100

/-- Whether `connect_agora` gets past the readiness gate: `false` is the
`Connection timeout` failure return, decided by `agora_connected` alone. -/
def connGateOk (f : Nat → Bool × Bool) : Bool :=
  (f (finalIdx f)).1

/-- Flag trace: transport connected throughout, data stream never ready. -/
def stuckConnectedFlags : Nat → Bool × Bool := fun _ => (true, false)

/-- Flag trace: transport never connects. -/
def neverReadyFlags : Nat → Bool × Bool := fun _ => (false, false)

/-! ### Device-management API calls (`enter_remote_control_mode`, lines 356-371,
and teardown, lines 327-342 and 1317-1332) -/

/-- A device-management API response as inspected by the code: the
`result.code` field (`none` when absent, e.g. the `error` dict produced by a
caught exception in `api_post`) and an opaque identifier standing for the full
response payload. -/
structure ApiResult where
  code : Option Int
  payload : Nat
deriving DecidableEq

/-- Result of `enter_remote_control_mode`: the first successful response, or
the aggregated error dict. -/
inductive EnterOutcome where
  | ok (r : ApiResult)
  | err (msg : String)
deriving DecidableEq

/-- First candidate endpoint: `enterModeB`. -/
def epModeB (sn : String) : String :=
  "/cr/app/api/v1/devices/" ++ sn ++ "/live/activationCode/enterModeB"

/-- Second candidate endpoint: `enterMode` with a control body. -/
def epMode (sn : String) : String :=
  "/cr/app/api/v1/devices/" ++ sn ++ "/live/activationCode/enterMode"

/-- Third candidate endpoint: `rc/enter`. -/
def epRc (sn : String) : String :=
  "/cr/app/api/v1/devices/" ++ sn ++ "/rc/enter"

/-- The fixed, ordered candidate endpoint list (lines 359-363), with bodies. -/
def enterEndpoints (sn : String) : List (String × List (String × String)) :=
  [(epModeB sn, []), (epMode sn, [("mode", "control")]), (epRc sn, [])]

/-- The `for endpoint, body in endpoints` loop (lines 365-371): issue the
calls in order, stop at the first response whose `result.code` is 0; record
the endpoints called, in order.  `resp` is the environment: the response the
device-management API gives each endpoint/body. -/
def tryEndpoints (resp : String → List (String × String) → ApiResult) :
    List (String × List (String × String)) → List String × EnterOutcome
  | [] => ([], .err "Could not enter control mode")
  | (ep, body) :: rest =>
    if (resp ep body).code = some 0 then ([ep], .ok (resp ep body))
    else
      let r := tryEndpoints resp rest
      (ep :: r.1, r.2)

/-- `DJIVideoController.enter_remote_control_mode`. -/
def enter_remote_control_mode (sn : String)
    (resp : String → List (String × String) → ApiResult) :
    List String × EnterOutcome :=
  tryEndpoints resp (enterEndpoints sn)

/-- Teardown actions, in the order the code can perform them. -/
inductive TAct where
  | clearMode
  | stopLoop
  | joinThread
  | exitControlMode
  | disconnectTransport
  | releaseTransport
  | releaseService
  | stopControlService
  | stopStream
deriving DecidableEq

/-- What triggered teardown: `main` reaches its `finally` block on normal
completion, on Ctrl-C (`KeyboardInterrupt`) and on a startup error alike. -/
inductive Trigger where
  | normal
  | keyboardInterrupt
  | startupError
deriving DecidableEq

/-- Action trace of `disconnect_agora` (lines 327-342): clear the latch, stop
the loop, join the send thread (bounded, when it exists), issue the
exit-control-mode request, then disconnect and release the transport (when
present) and release the service.  The result of the exit-control API call is
returned by `api_post` as data (never an exception) and does not alter the
flow, hence the ignored `_exitRes` argument. -/
def disconnect_agora_acts (_exitRes : ApiResult)
    (hasThread hasConn hasService : Bool) : List TAct :=
  [TAct.clearMode, TAct.stopLoop]
    ++ (if hasThread then [TAct.joinThread] else [])
    ++ [TAct.exitControlMode]
    ++ (if hasConn then [TAct.disconnectTransport, TAct.releaseTransport] else [])
    ++ (if hasService then [TAct.releaseService] else [])

/-- Action trace of the `finally` block of `main` (lines 1328-1331):
`disconnect_agora()`, `stop_control_server()`, `stop_live_stream()`.  The
block is identical for every trigger, and the stop-stream API result
(`_stopRes`) is likewise returned as data without altering the flow. -/
def main_teardown_acts (_trig : Trigger) (exitRes _stopRes : ApiResult)
    (hasThread hasConn hasService hasServer : Bool) : List TAct :=
  disconnect_agora_acts exitRes hasThread hasConn hasService
    ++ (if hasServer then [TAct.stopControlService] else [])
    ++ [TAct.stopStream]

/-- Environment in which the first two candidate endpoints answer with a
non-zero result code and the third succeeds. -/
def respThird : String → List (String × String) → ApiResult := fun ep _ =>
  if ep = epRc "SN" then { code := some 0, payload := 3 }
  else { code := some 1, payload := 1 }

/-- Index of the first occurrence of an action in a trace (length if absent). -/
def idxOf (a : TAct) : List TAct → Nat
  | [] => 0
  | x :: rest => if x = a then 0 else idxOf a rest + 1

/-! ### Concrete session runs used to exercise the theorems -/

/-- State after the `on_connected` callback fires on a fresh session. -/
def sA : CState := applyEv 50000 Ev.onConnected initState

/-- State after additionally handling `POST /control` with direction `up`. -/
def s1 : CState := applyEv 50000 (Ev.control 5 (some "up")) sA

/-- State after one further broadcaster tick. -/
def s2 : CState := applyEv 50000 (Ev.tick 7) s1

/-- State after `on_connected`, robot `on_user_joined`, then
`on_disconnected`. -/
def sBad : CState :=
  applyEv 50000 Ev.onDisconnected (applyEv 50000 (Ev.onUserJoined 50000) sA)

/-! ### Basic evaluations of the embedding -/

example : pyInt? "42" = some 42 := by decide
example : pyInt? "abc" = none := by decide
example : pyInt? "0" = some 0 := by decide
example : parse_stream_creds "uid=abc" (some 50000) = none := by decide
example :
    parse_stream_creds "app_id=X&channel=Y&token=A%3DB&uid=42" (some 50000) =
      some { app_id := "X", channel := "Y", token := "A=B", uid := 42, publish_uid := 50000 } := by
  decide

/-! ### Session invariant lemmas -/

lemma inv_initState : Inv initState := by
  refine ⟨?_, rfl, rfl⟩
  intro h
  exact absurd h (by decide)

lemma inv_send_now (now m : Nat) (s : CState) (h : Inv s) :
    Inv (send_agora_message_now now m s) := by
  unfold send_agora_message_now
  split
  · exact h
  · obtain ⟨hflag, hseq, hmap⟩ := h
    refine ⟨hflag, ?_, ?_⟩
    · simp [hseq]
    · simp [hmap, hseq, mkMsg, List.range_succ]

lemma inv_send_control (now : Nat) (d : String) (s : CState) (h : Inv s) :
    Inv ((send_agora_control now d s).1) := by
  unfold send_agora_control
  obtain ⟨hflag, hseq, hmap⟩ := h
  split
  · exact ⟨hflag, hseq, hmap⟩
  · cases hm : AGORA_MODES d with
    | none => exact ⟨hflag, hseq, hmap⟩
    | some m =>
      simp only []
      exact inv_send_now now m _ ⟨hflag, hseq, hmap⟩

lemma inv_tick (now : Nat) (s : CState) (h : Inv s) : Inv (agora_tick now s) := by
  unfold agora_tick
  cases hsm : s.current_mode with
  | none => exact h
  | some m =>
    simp only []
    split
    · exact inv_send_now now m s h
    · exact h

lemma inv_handler (now : Nat) (df : Option String) (s : CState) (h : Inv s) :
    Inv ((do_POST_control now df s).2) := by
  unfold do_POST_control
  split
  · exact inv_send_control now _ s h
  · exact h

lemma inv_step (pub : Nat) (e : Ev) (s : CState) (hok : evOK s e) (h : Inv s) :
    Inv (applyEv pub e s) := by
  obtain ⟨hflag, hseq, hmap⟩ := h
  cases e with
  | onConnected => exact ⟨fun _ => ⟨rfl, hok⟩, hseq, hmap⟩
  | onDisconnected => exact ⟨fun hc => Bool.noConfusion hc, hseq, hmap⟩
  | onReconnected =>
    exact ⟨fun hr => ⟨rfl, (hflag hr).2⟩, hseq, hmap⟩
  | onUserJoined u =>
    by_cases hu : u = pub
    · simp only [applyEv, if_pos hu]
      exact ⟨hflag, hseq, hmap⟩
    · simp only [applyEv, if_neg hu]
      exact ⟨hflag, hseq, hmap⟩
  | onUserLeft u =>
    by_cases hu : u = pub
    · simp only [applyEv, if_pos hu]
      exact ⟨hflag, hseq, hmap⟩
    · simp only [applyEv, if_neg hu]
      exact ⟨hflag, hseq, hmap⟩
  | tick now => exact inv_tick now s ⟨hflag, hseq, hmap⟩
  | control now df => exact inv_handler now df s ⟨hflag, hseq, hmap⟩
  | teardown => exact ⟨fun hc => Bool.noConfusion hc, hseq, hmap⟩

/-- Every reachable state satisfies the session invariant. -/
lemma reachable_inv {pub : Nat} {s : CState} (hr : Reachable pub s) : Inv s := by
  induction hr with
  | init => exact inv_initState
  | step e _ hok ih => exact inv_step _ e _ hok ih

/-- In a reachable state, the message at position `i` of the transmission
history carries sequence number `i`. -/
lemma sent_seq_at {pub : Nat} {s : CState} (hr : Reachable pub s)
    {i : Nat} {m : Msg} (hm : s.sent[i]? = some m) : m.seq_id = i := by
  obtain ⟨-, -, hmap⟩ := reachable_inv hr
  have h1 : (s.sent.map Msg.seq_id)[i]? = some m.seq_id := by
    rw [List.getElem?_map, hm]
    rfl
  rw [hmap] at h1
  have hi : i < s.sent.length := by
    by_contra hlt
    rw [List.getElem?_eq_none (by simpa using Nat.le_of_not_lt hlt)] at h1
    exact Option.noConfusion h1
  rw [List.getElem?_range hi] at h1
  exact (Option.some.inj h1).symm

lemma seq_le_send_now (now m : Nat) (s : CState) :
    s.seq_id ≤ (send_agora_message_now now m s).seq_id := by
  unfold send_agora_message_now
  split
  · exact Nat.le_refl _
  · exact Nat.le_succ _

lemma seq_le_send_control (now : Nat) (d : String) (s : CState) :
    s.seq_id ≤ ((send_agora_control now d s).1).seq_id := by
  unfold send_agora_control
  split
  · exact Nat.le_refl _
  · cases hA : AGORA_MODES d with
    | none => simp only [hA]; exact Nat.le_refl _
    | some m =>
      simp only [hA]
      exact seq_le_send_now now m { s with current_mode := some m }

lemma seq_le_tick (now : Nat) (s : CState) : s.seq_id ≤ (agora_tick now s).seq_id := by
  unfold agora_tick
  cases s.current_mode with
  | none => exact Nat.le_refl _
  | some m =>
    simp only []
    split
    · exact seq_le_send_now now m s
    · exact Nat.le_refl _

lemma seq_le_handler (now : Nat) (df : Option String) (s : CState) :
    s.seq_id ≤ ((do_POST_control now df s).2).seq_id := by
  unfold do_POST_control
  split
  · exact seq_le_send_control now _ s
  · exact Nat.le_refl _

/-- No event decreases the sequence counter: it is never reset within a
session (only a brand-new `DJIVideoController.__init__` starts from 0). -/
lemma seq_le_applyEv (pub : Nat) (e : Ev) (s : CState) :
    s.seq_id ≤ (applyEv pub e s).seq_id := by
  cases e with
  | onConnected => exact Nat.le_refl _
  | onDisconnected => exact Nat.le_refl _
  | onReconnected => exact Nat.le_refl _
  | onUserJoined u =>
    simp only [applyEv]
    split <;> exact Nat.le_refl _
  | onUserLeft u =>
    simp only [applyEv]
    split <;> exact Nat.le_refl _
  | tick now => exact seq_le_tick now s
  | control now df => exact seq_le_handler now df s
  | teardown => exact Nat.le_refl _

/-! ### Wait-loop lemmas -/

lemma pollLoop_le (f : Nat → Bool × Bool) :
    ∀ fuel i, pollLoop f fuel i ≤ i + fuel := by
  intro fuel
  induction fuel with
  | zero => intro i; simp [pollLoop]
  | succ n ih =>
    intro i
    unfold pollLoop
    split
    · exact Nat.le_add_right _ _
    · calc pollLoop f n (i + 1) ≤ i + 1 + n := ih (i + 1)
        _ = i + (n + 1) := by omega

lemma pollLoop_break (f : Nat → Bool × Bool) :
    ∀ fuel i, pollLoop f fuel i = i + fuel ∨
      ((f (pollLoop f fuel i)).1 = true ∧ (f (pollLoop f fuel i)).2 = true) := by
  intro fuel
  induction fuel with
  | zero => intro i; left; rfl
  | succ n ih =>
    intro i
    unfold pollLoop
    split
    · next h =>
      right
      rcases Bool.and_eq_true _ _ ▸ h with ⟨h1, h2⟩
      exact ⟨h1, h2⟩
    · rcases ih (i + 1) with h | h
      · left; omega
      · right; exact h

lemma breakIdx_le (f : Nat → Bool × Bool) : breakIdx f ≤ 100 := by
  simpa using pollLoop_le f 100 0

lemma finalIdx_le (f : Nat → Bool × Bool) : finalIdx f ≤ 100 := by
  unfold finalIdx
  split
  · omega
  · exact Nat.le_refl _

/-! ### Reachability of the concrete run -/

lemma reach_sA : Reachable 50000 sA :=
  Reachable.step Ev.onConnected Reachable.init rfl

lemma reach_s1 : Reachable 50000 s1 :=
  Reachable.step (Ev.control 5 (some "up")) reach_sA trivial

lemma reach_s2 : Reachable 50000 s2 :=
  Reachable.step (Ev.tick 7) reach_s1 (by show s1.running = true; decide)

example : s1.sent = [mkMsg 0 5 17] := by decide
example : s2.sent = [mkMsg 0 5 17, mkMsg 1 7 17] := by decide
example : sBad.robot_joined = true ∧ sBad.connected = false := by decide

/-! ### Claims -/

/-- Claim C1: in every reachable session state, a broadcaster tick with the
session connected, the stream ready and a latched mode transmits exactly one
wire message carrying the currently latched mode; `send_agora_control` with a
valid direction latches it and sends one message immediately;
`send_agora_control "stop"` only clears the latch and sends nothing; and with
no latched mode a tick transmits nothing. -/
theorem C1_broadcaster_transmission (pub now : Nat) (s : CState)
    (hr : Reachable pub s) :
    (∀ m, s.connected = true → s.stream_ready = true → s.current_mode = some m →
      (agora_tick now s).sent = s.sent ++ [mkMsg s.seq_id now m])
  ∧ (∀ d m, s.connected = true → s.stream_ready = true → AGORA_MODES d = some m →
      ((send_agora_control now d s).1).sent = s.sent ++ [mkMsg s.seq_id now m]
      ∧ ((send_agora_control now d s).1).current_mode = some m)
  ∧ (send_agora_control now "stop" s).1 = { s with current_mode := none }
  ∧ (s.current_mode = none → agora_tick now s = s) := by
  have hconn := (reachable_inv hr).1
  refine ⟨?_, ?_, ?_, ?_⟩
  · intro m hc hrd hm
    have hcn : s.connection = true := (hconn hrd).2
    simp [agora_tick, hm, hc, hrd, send_agora_message_now, hcn]
  · intro d m hc hrd hA
    have hcn : s.connection = true := (hconn hrd).2
    have hds : d ≠ "stop" := by
      intro h
      have hnone : AGORA_MODES "stop" = none := by decide
      rw [h, hnone] at hA
      exact Option.noConfusion hA
    simp [send_agora_control, hds, hA, send_agora_message_now, hcn, hrd]
  · simp [send_agora_control]
  · intro hm
    simp [agora_tick, hm]

/-- Witness for C1 at the concrete connected state `sA`. -/
theorem C1_broadcaster_transmission_witness :
    ((send_agora_control 3 "forward" sA).1).sent = sA.sent ++ [mkMsg sA.seq_id 3 17]
  ∧ (send_agora_control 3 "stop" sA).1 = { sA with current_mode := none }
  ∧ agora_tick 3 sA = sA :=
  ⟨((C1_broadcaster_transmission 50000 3 sA reach_sA).2.1 "forward" 17 rfl rfl
      (by decide)).1,
   (C1_broadcaster_transmission 50000 3 sA reach_sA).2.2.1,
   (C1_broadcaster_transmission 50000 3 sA reach_sA).2.2.2 rfl⟩

/-- Claim C2: in every reachable session state, consecutive transmitted
messages carry sequence numbers differing by exactly 1, the sequence numbers
are monotonically non-decreasing along the history, never reused, and no
further event of the session decreases the `seq_id` counter. -/
theorem C2_seq_id_discipline (pub : Nat) (s : CState) (hr : Reachable pub s) :
    (∀ (i : Nat) (m m2 : Msg), s.sent[i]? = some m → s.sent[i + 1]? = some m2 →
      m2.seq_id = m.seq_id + 1)
  ∧ (∀ (i j : Nat) (m m2 : Msg), i ≤ j → s.sent[i]? = some m →
      s.sent[j]? = some m2 → m.seq_id ≤ m2.seq_id)
  ∧ (∀ (i j : Nat) (m m2 : Msg), s.sent[i]? = some m → s.sent[j]? = some m2 →
      m.seq_id = m2.seq_id → i = j)
  ∧ (∀ e, evOK s e → s.seq_id ≤ (applyEv pub e s).seq_id) := by
  refine ⟨?_, ?_, ?_, ?_⟩
  · intro i m m2 h1 h2
    rw [sent_seq_at hr h1, sent_seq_at hr h2]
  · intro i j m m2 hij h1 h2
    rw [sent_seq_at hr h1, sent_seq_at hr h2]
    exact hij
  · intro i j m m2 h1 h2 he
    rw [sent_seq_at hr h1, sent_seq_at hr h2] at he
    exact he
  · intro e _
    exact seq_le_applyEv pub e s

/-- Witness for C2 on the concrete two-message run `s2`. -/
theorem C2_seq_id_discipline_witness :
    s2.sent[0]? = some (mkMsg 0 5 17) ∧ s2.sent[1]? = some (mkMsg 1 7 17)
  ∧ (mkMsg 1 7 17).seq_id = (mkMsg 0 5 17).seq_id + 1
  ∧ s2.seq_id ≤ (applyEv 50000 (Ev.tick 9) s2).seq_id :=
  ⟨by decide, by decide,
   (C2_seq_id_discipline 50000 s2 reach_s2).1 0 (mkMsg 0 5 17) (mkMsg 1 7 17)
     (by decide) (by decide),
   (C2_seq_id_discipline 50000 s2 reach_s2).2.2.2 (Ev.tick 9)
     (by show s2.running = true; decide)⟩

/-- Claim C3: in every reachable session state that is not
`connected && stream_ready`, the send primitive is a complete no-op (no wire
message, no state change, sequence counter untouched), including the immediate
send triggered from `send_agora_control`. -/
theorem C3_send_requires_ready (pub now m : Nat) (s : CState)
    (hr : Reachable pub s)
    (hg : ¬(s.connected = true ∧ s.stream_ready = true)) :
    send_agora_message_now now m s = s
  ∧ (∀ d, ((send_agora_control now d s).1).sent = s.sent
      ∧ ((send_agora_control now d s).1).seq_id = s.seq_id) := by
  have hnr : s.stream_ready = false := by
    cases hsr : s.stream_ready
    · rfl
    · exact absurd ⟨((reachable_inv hr).1 hsr).1, hsr⟩ hg
  constructor
  · simp [send_agora_message_now, hnr]
  · intro d
    unfold send_agora_control
    split
    · exact ⟨rfl, rfl⟩
    · cases hA : AGORA_MODES d with
      | none => simp [hA]
      | some m2 =>
        simp only [hA]
        constructor
        · simp [send_agora_message_now, hnr]
        · simp [send_agora_message_now, hnr]

/-- Witness for C3 at the fresh, not yet connected state. -/
theorem C3_send_requires_ready_witness :
    send_agora_message_now 3 17 initState = initState
  ∧ ((send_agora_control 3 "forward" initState).1).sent = initState.sent :=
  ⟨(C3_send_requires_ready 50000 3 17 initState Reachable.init (by decide)).1,
   ((C3_send_requires_ready 50000 3 17 initState Reachable.init (by decide)).2
     "forward").1⟩

/-- Claim C4, counterexample: with the transport connected throughout but the
stream never ready, the conjunction `connected && stream_ready` is unmet at
every flag read, yet `connect_agora` passes the readiness gate without
returning the `ConnectionTimeout` failure — the post-wait check (line 262)
tests only `agora_connected`. -/
theorem C4_counterexample :
    (∀ i : Nat,
      ¬((stuckConnectedFlags i).1 = true ∧ (stuckConnectedFlags i).2 = true))
  ∧ connGateOk stuckConnectedFlags = true := by
  constructor
  · intro i h
    exact Bool.noConfusion h.2
  · decide

/-- Claim C4 amended: `connect_agora` polls the pair
`connected && stream_ready` up to 100 times, breaking out only when both are
true, but the `ConnectionTimeout` failure is decided by the `connected` flag
alone at the post-wait read: the gate fails exactly when `connected` is false
there, so it always fails when `connected` never becomes true, while
`connected` true with `stream_ready` still false proceeds without failure. -/
theorem C4_connect_gate_amended (f : Nat → Bool × Bool) :
    (connGateOk f = false ↔ (f (finalIdx f)).1 = false)
  ∧ ((∀ i, i ≤ 100 → (f i).1 = false) → connGateOk f = false)
  ∧ (breakIdx f < 100 →
      (f (breakIdx f)).1 = true ∧ (f (breakIdx f)).2 = true)
  ∧ breakIdx f ≤ 100 := by
  refine ⟨Iff.rfl, ?_, ?_, breakIdx_le f⟩
  · intro h
    exact h _ (finalIdx_le f)
  · intro hlt
    rcases pollLoop_break f 100 0 with h | h
    · exfalso
      rw [breakIdx] at hlt
      omega
    · exact h

/-- Witness for the amended C4: a transport that never connects is reported
as `ConnectionTimeout`. -/
theorem C4_connect_gate_amended_witness :
    connGateOk neverReadyFlags = false :=
  (C4_connect_gate_amended neverReadyFlags).2.1 fun _ _ => rfl

/-- Claim C5, counterexample: after `on_connected`, the robot's
`on_user_joined`, then `on_disconnected`, the session is in a reachable state
with `peer_joined` true and `connected` false — `on_disconnected` (lines
199-201) clears the connectivity flags but not `agora_robot_joined`. -/
theorem C5_counterexample :
    Reachable 50000 sBad ∧ sBad.robot_joined = true ∧ sBad.connected = false :=
  ⟨Reachable.step Ev.onDisconnected
     (Reachable.step (Ev.onUserJoined 50000) reach_sA rfl) rfl,
   rfl, rfl⟩

/-- Claim C5 amended: the observer callbacks do not maintain
`peer_joined ⇒ connected` — `on_user_joined` sets the joined flag without
consulting `connected` and `on_disconnected` leaves it set — so the invariant
fails after a disconnect with the peer joined; the flag invariant that does
hold in every reachable state is `stream_ready ⇒ connected`. -/
theorem C5_flags_invariant_amended (pub : Nat) (s : CState)
    (hr : Reachable pub s) :
    s.stream_ready = true → s.connected = true :=
  fun h => ((reachable_inv hr).1 h).1

/-- Witness for the amended C5 at the connected state `sA`. -/
theorem C5_flags_invariant_amended_witness :
    sA.stream_ready = true ∧ sA.connected = true :=
  ⟨rfl, C5_flags_invariant_amended 50000 sA reach_sA rfl⟩

/-- Claim C6, counterexample: on a grant string whose `uid` value is not a
valid integer literal, `int(params.get("uid", "0"))` raises `ValueError`
(modelled as `none`): the resolver is not total and does not default `uid`
to 0 on a malformed value. -/
theorem C6_counterexample :
    parse_stream_creds "uid=abc" (some 50000) = none := by
  decide

/-- Claim C6 amended: the resolver fails exactly when a `uid` field is
present whose value Python `int` rejects; `uid` defaults to 0 only when the
field is absent; on success the fields are as specified, with `token`
percent-decoded, as on the spec's concrete example. -/
theorem C6_resolver_amended (url : String) (pub? : Option Nat) :
    (parse_stream_creds url pub? = none ↔
      pyInt? (dictGet (parseParams url) "uid" "0") = none)
  ∧ ((parseParams url).reverse.lookup "uid" = none →
      parse_stream_creds url pub? =
        some { app_id := dictGet (parseParams url) "app_id" ""
               channel := dictGet (parseParams url) "channel" ""
               token := dictGet (parseParams url) "token" ""
               uid := 0
               publish_uid := pub?.getD 50000 })
  ∧ (∀ n : Int, pyInt? (dictGet (parseParams url) "uid" "0") = some n →
      parse_stream_creds url pub? =
        some { app_id := dictGet (parseParams url) "app_id" ""
               channel := dictGet (parseParams url) "channel" ""
               token := dictGet (parseParams url) "token" ""
               uid := n
               publish_uid := pub?.getD 50000 })
  ∧ parse_stream_creds "app_id=X&channel=Y&token=A%3DB&uid=42" (some 50000) =
      some { app_id := "X", channel := "Y", token := "A=B", uid := 42,
             publish_uid := 50000 } := by
  refine ⟨?_, ?_, ?_, by decide⟩
  · unfold parse_stream_creds
    cases h : pyInt? (dictGet (parseParams url) "uid" "0") with
    | none => simp [h]
    | some n => simp [h]
  · intro habs
    have hg : dictGet (parseParams url) "uid" "0" = "0" := by
      unfold dictGet
      rw [habs]
      rfl
    have h0 : pyInt? "0" = some 0 := by decide
    simp [parse_stream_creds, hg, h0]
  · intro n hn
    simp [parse_stream_creds, hn]

/-- Witness for the amended C6 on a grant string with no `uid` field. -/
theorem C6_resolver_amended_witness :
    parse_stream_creds "a=b" none =
      some { app_id := dictGet (parseParams "a=b") "app_id" ""
             channel := dictGet (parseParams "a=b") "channel" ""
             token := dictGet (parseParams "a=b") "token" ""
             uid := 0
             publish_uid := (none : Option Nat).getD 50000 } :=
  (C6_resolver_amended "a=b" none).2.1 (by decide)

/-- Claim C7: `POST /control` while the session is not
`connected && stream_ready` answers 503 with the `Agora not connected` error
and leaves the state (latched mode and sequence counter included) completely
unchanged; when both flags hold it invokes `send_agora_control` on the mapped
direction and answers the success payload. -/
theorem C7_control_requires_ready (now : Nat) (df : Option String) (s : CState) :
    ((s.connected = true ∧ s.stream_ready = true) →
      do_POST_control now df s =
        ({ status := 200, ok := true,
           direction := some (dir_map_get (df.getD "none")),
           via := some "agora", error := none },
         (send_agora_control now (dir_map_get (df.getD "none")) s).1))
  ∧ (¬(s.connected = true ∧ s.stream_ready = true) →
      (do_POST_control now df s).1.status = 503
      ∧ (do_POST_control now df s).1.error = some "Agora not connected"
      ∧ (do_POST_control now df s).2 = s) := by
  constructor
  · rintro ⟨hc, hrd⟩
    simp [do_POST_control, hc, hrd]
  · intro hg
    have hand : (s.connected && s.stream_ready) = false := by
      cases hc : s.connected
      · simp
      · cases hrd : s.stream_ready
        · simp
        · exact absurd ⟨hc, hrd⟩ hg
    simp [do_POST_control, hand]

/-- Witness for C7: gate open at `sA`, gate closed at the fresh state. -/
theorem C7_control_requires_ready_witness :
    do_POST_control 11 (some "up") sA =
      ({ status := 200, ok := true, direction := some (dir_map_get "up"),
         via := some "agora", error := none },
       (send_agora_control 11 (dir_map_get "up") sA).1)
  ∧ (do_POST_control 11 (some "up") initState).1.status = 503
  ∧ (do_POST_control 11 (some "up") initState).2 = initState :=
  ⟨(C7_control_requires_ready 11 (some "up") sA).1 ⟨rfl, rfl⟩,
   ((C7_control_requires_ready 11 (some "up") initState).2 (by decide)).1,
   ((C7_control_requires_ready 11 (some "up") initState).2 (by decide)).2.2⟩

/-- Claim C8: `enter_remote_control_mode` issues the three candidate calls in
the declared order, stops at and returns the first response whose result code
is 0, and when all three fail returns the single aggregated error after
exactly one pass. -/
theorem C8_enter_control_first_success (sn : String)
    (resp : String → List (String × String) → ApiResult) :
    ((resp (epModeB sn) []).code = some 0 →
      enter_remote_control_mode sn resp =
        ([epModeB sn], EnterOutcome.ok (resp (epModeB sn) [])))
  ∧ ((resp (epModeB sn) []).code ≠ some 0 →
      (resp (epMode sn) [("mode", "control")]).code = some 0 →
      enter_remote_control_mode sn resp =
        ([epModeB sn, epMode sn],
         EnterOutcome.ok (resp (epMode sn) [("mode", "control")])))
  ∧ ((resp (epModeB sn) []).code ≠ some 0 →
      (resp (epMode sn) [("mode", "control")]).code ≠ some 0 →
      (resp (epRc sn) []).code = some 0 →
      enter_remote_control_mode sn resp =
        ([epModeB sn, epMode sn, epRc sn], EnterOutcome.ok (resp (epRc sn) [])))
  ∧ ((resp (epModeB sn) []).code ≠ some 0 →
      (resp (epMode sn) [("mode", "control")]).code ≠ some 0 →
      (resp (epRc sn) []).code ≠ some 0 →
      enter_remote_control_mode sn resp =
        ([epModeB sn, epMode sn, epRc sn],
         EnterOutcome.err "Could not enter control mode")) := by
  refine ⟨?_, ?_, ?_, ?_⟩
  · intro h1
    simp [enter_remote_control_mode, enterEndpoints, tryEndpoints, h1]
  · intro h1 h2
    simp [enter_remote_control_mode, enterEndpoints, tryEndpoints, h1, h2]
  · intro h1 h2 h3
    simp [enter_remote_control_mode, enterEndpoints, tryEndpoints, h1, h2, h3]
  · intro h1 h2 h3
    simp [enter_remote_control_mode, enterEndpoints, tryEndpoints, h1, h2, h3]

/-- Witness for C8: with the first two endpoints failing and the third
succeeding, exactly three calls are issued in order and the third's payload
is returned. -/
theorem C8_enter_control_first_success_witness :
    enter_remote_control_mode "SN" respThird =
      ([epModeB "SN", epMode "SN", epRc "SN"],
       EnterOutcome.ok { code := some 0, payload := 3 }) :=
  (C8_enter_control_first_success "SN" respThird).2.2.1
    (by decide) (by decide) (by decide)

/-- Claim C9: every teardown run performs, in order: stop the broadcaster
loop and join it, issue the exit-remote-control-mode request, disconnect and
release the transport, stop the local control service, issue the stop-stream
request; the exit-control request always comes before the transport release,
and the trace does not depend on what triggered teardown or on the outcome of
the API steps. -/
theorem C9_teardown_order :
    (∀ (trig : Trigger) (eR sR : ApiResult),
      main_teardown_acts trig eR sR true true true true =
        [TAct.clearMode, TAct.stopLoop, TAct.joinThread, TAct.exitControlMode,
         TAct.disconnectTransport, TAct.releaseTransport, TAct.releaseService,
         TAct.stopControlService, TAct.stopStream])
  ∧ (∀ (trig : Trigger) (eR sR : ApiResult) (hT hC hSvc hSrv : Bool),
      TAct.releaseTransport ∈ main_teardown_acts trig eR sR hT hC hSvc hSrv →
      idxOf TAct.exitControlMode (main_teardown_acts trig eR sR hT hC hSvc hSrv) <
        idxOf TAct.releaseTransport (main_teardown_acts trig eR sR hT hC hSvc hSrv))
  ∧ (∀ (trig trig2 : Trigger) (eR eR2 sR sR2 : ApiResult) (hT hC hSvc hSrv : Bool),
      main_teardown_acts trig eR sR hT hC hSvc hSrv =
        main_teardown_acts trig2 eR2 sR2 hT hC hSvc hSrv) := by
  refine ⟨?_, ?_, ?_⟩
  · intro trig eR sR
    rfl
  · intro trig eR sR hT hC hSvc hSrv hmem
    revert hmem
    simp only [main_teardown_acts, disconnect_agora_acts]
    cases hT <;> cases hC <;> cases hSvc <;> cases hSrv <;> decide
  · intro trig trig2 eR eR2 sR sR2 hT hC hSvc hSrv
    rfl

/-- Witness for C9 on a Ctrl-C-triggered teardown with failing API steps. -/
theorem C9_teardown_order_witness :
    idxOf TAct.exitControlMode
        (main_teardown_acts Trigger.keyboardInterrupt
          { code := none, payload := 0 } { code := some 1, payload := 9 }
          true true true true) <
      idxOf TAct.releaseTransport
        (main_teardown_acts Trigger.keyboardInterrupt
          { code := none, payload := 0 } { code := some 1, payload := 9 }
          true true true true) :=
  C9_teardown_order.2.1 Trigger.keyboardInterrupt
    { code := none, payload := 0 } { code := some 1, payload := 9 }
    true true true true (by decide)

/-- Claim C10: a `POST /control` request processed while the gate is open
whose direction token is not one of the ten recognized tokens — or whose
direction field is absent — is mapped to `stop`: the latch is cleared,
nothing is transmitted, and the response is a success naming direction
`stop`. -/
theorem C10_unknown_direction_maps_to_stop (now : Nat) (s : CState) (tok : String)
    (htok : tok ∉ ["up", "down", "left", "right", "none", "forward",
                   "rotate_left", "rotate_right", "u_turn", "stop"])
    (hc : s.connected = true) (hrd : s.stream_ready = true) :
    do_POST_control now (some tok) s =
      ({ status := 200, ok := true, direction := some "stop",
         via := some "agora", error := none }, { s with current_mode := none })
  ∧ do_POST_control now none s =
      ({ status := 200, ok := true, direction := some "stop",
         via := some "agora", error := none }, { s with current_mode := none }) := by
  have hmap : dir_map_get tok = "stop" := by
    simp at htok
    obtain ⟨h1, h2, h3, h4, h5, h6, h7, h8, h9, h10⟩ := htok
    simp [dir_map_get, DIR_MAP, List.lookup,
      beq_eq_false_iff_ne.mpr h1, beq_eq_false_iff_ne.mpr h2,
      beq_eq_false_iff_ne.mpr h3, beq_eq_false_iff_ne.mpr h4,
      beq_eq_false_iff_ne.mpr h5, beq_eq_false_iff_ne.mpr h6,
      beq_eq_false_iff_ne.mpr h7, beq_eq_false_iff_ne.mpr h8,
      beq_eq_false_iff_ne.mpr h9, beq_eq_false_iff_ne.mpr h10]
  have hnone : dir_map_get "none" = "stop" := by decide
  constructor
  · simp [do_POST_control, hc, hrd, hmap, send_agora_control]
  · simp [do_POST_control, hc, hrd, hnone, send_agora_control]

/-- Witness for C10 with the unrecognized token `fly` at the state `sA`. -/
theorem C10_unknown_direction_maps_to_stop_witness :
    do_POST_control 13 (some "fly") sA =
      ({ status := 200, ok := true, direction := some "stop",
         via := some "agora", error := none }, { sA with current_mode := none }) :=
  (C10_unknown_direction_maps_to_stop 13 sA "fly" (by decide) rfl rfl).1

end DJIVideoControl
